import Mathlib

/-!
Verification development for the Sepolia address monitor
(`monitor-sepolia.js`).  The script backfills historical activity for one
watched address from the Etherscan indexing API (`printHistory`), then
subscribes to new blocks and, for each, filters the block body for normal
transactions touching the address and queries the indexing API for internal
transactions of that single block (`handleBlock` / `liveMonitor`).

The embedding below is shallow: every network interaction is a pure function
supplied as a parameter (the indexing API is `TxQuery → EtherscanResponse`,
the node is `Nat → Option Block`), console output and event emission are
recorded as explicit `Act` values, and thrown JS errors are `Except.error`
values.  Definitions follow the source line by line; definitions whose name
starts with `spec` formalise wording of the specification document instead,
for comparison with the code.
-/

/-- ASCII lower-casing of a string, modelling JavaScript's `toLowerCase()`
on the hexadecimal address and hash strings this program handles. -/
def lowerStr (s : String) : String :=
  String.mk (s.data.map Char.toLower)

/-- A transaction record as returned by the Etherscan account API
(`txlist` / `txlistinternal` result entries).  `blockNumber`, `timeStamp`
and `value` are decimal strings on the wire; they are modelled by their
numeric values (`value` is wei, arbitrary precision). -/
structure EtherscanTx where
  hash : String
  blockNumber : Nat
  timeStamp : Nat
  «from» : String
  «to» : String
  value : Nat
  input : String
  type : Option String
  traceId : Option String

deriving instance DecidableEq for EtherscanTx

/-- The JSON body of an Etherscan API response: `status` is `"1"` on
success and `"0"` on failure, `message` describes the outcome, and
`result` is the (possibly absent) list of transaction records.
`result = none` models a null/missing field (JS falsy). -/
structure EtherscanResponse where
  status : String
  message : String
  result : Option (List EtherscanTx)

deriving instance DecidableEq for EtherscanResponse

/-- The query-string parameters of one Etherscan GET request, as built by
`fetchNormalTxs` / `fetchInternalTxs` (the API key is omitted: it does not
influence the modelled behaviour). -/
structure TxQuery where
  module : String
  action : String
  address : String
  startblock : Nat
  endblock : Nat
  page : Nat
  offset : Nat
  sort : String

deriving instance DecidableEq for TxQuery

/-- The request `fetchNormalTxs address startBlock endBlock offset` issues:
`module=account`, `action=txlist`, `page=1`, `sort=asc` (source lines
26-30).  The page number is the literal `'1'`. -/
def normalQuery (address : String) (startBlock endBlock offset : Nat) : TxQuery :=
  { module := "account", action := "txlist", address := address,
    startblock := startBlock, endblock := endBlock,
    page := 1, offset := offset, sort := "asc" }

/-- The request `fetchInternalTxs address startBlock endBlock offset`
issues: `module=account`, `action=txlistinternal`, `page=1`, `sort=asc`
(source lines 39-43). -/
def internalQuery (address : String) (startBlock endBlock offset : Nat) : TxQuery :=
  { module := "account", action := "txlistinternal", address := address,
    startblock := startBlock, endblock := endBlock,
    page := 1, offset := offset, sort := "asc" }

/-- Handling of the response body inside `fetchNormalTxs` (lines 32-35):
throw unless the status is `"1"` or the message is exactly
`"No transactions found"`; otherwise return `data.result || []`. -/
def fetchNormalTxsResp (data : EtherscanResponse) : Except String (List EtherscanTx) :=
  if data.status ≠ "1" ∧ data.message ≠ "No transactions found" then
    Except.error ("Etherscan normal error: " ++ data.message)
  else
    Except.ok (data.result.getD [])

/-- Handling of the response body inside `fetchInternalTxs` (lines 45-48),
identical to the normal fetcher up to the error label. -/
def fetchInternalTxsResp (data : EtherscanResponse) : Except String (List EtherscanTx) :=
  if data.status ≠ "1" ∧ data.message ≠ "No transactions found" then
    Except.error ("Etherscan internal error: " ++ data.message)
  else
    Except.ok (data.result.getD [])

/-- `fetchNormalTxs` (lines 25-36): one GET with the page-1 query, then the
response check.  `api` stands for the HTTP transport. -/
def fetchNormalTxs (api : TxQuery → EtherscanResponse) (address : String)
    (startBlock endBlock offset : Nat) : Except String (List EtherscanTx) :=
  fetchNormalTxsResp (api (normalQuery address startBlock endBlock offset))

/-- `fetchInternalTxs` (lines 38-49): one GET with the page-1 query, then
the response check. -/
def fetchInternalTxs (api : TxQuery → EtherscanResponse) (address : String)
    (startBlock endBlock offset : Nat) : Except String (List EtherscanTx) :=
  fetchInternalTxsResp (api (internalQuery address startBlock endBlock offset))

/-- The complete list of HTTP requests one `fetchNormalTxs` call makes.
The body (lines 25-36) contains a single `axios.get` and no loop, so the
list is the one page-1 request. -/
def fetchNormalTxsQueries (address : String) (startBlock endBlock offset : Nat) :
    List TxQuery :=
  [normalQuery address startBlock endBlock offset]

/-- The complete list of HTTP requests one `fetchInternalTxs` call makes:
again a single page-1 request (lines 38-49). -/
def fetchInternalTxsQueries (address : String) (startBlock endBlock offset : Nat) :
    List TxQuery :=
  [internalQuery address startBlock endBlock offset]

/-- A backfill output event: one printed history record, tagged with which
of the two lists it came from. -/
inductive Event
  | normal (t : EtherscanTx)
  | internal (t : EtherscanTx)

deriving instance DecidableEq for Event

/-- JavaScript `slice(-5)`: the last five elements of a list (the whole
list when it has fewer than five). -/
def lastFive (l : List EtherscanTx) : List EtherscanTx :=
  l.drop (l.length - 5)

/-- The sequence of history records `printHistory` prints (lines 55-75):
the last five normal transactions in list order, followed by the last five
internal transactions in list order. -/
def printHistoryEvents (normal internal : List EtherscanTx) : List Event :=
  (lastFive normal).map Event.normal ++ (lastFive internal).map Event.internal

/-- `printHistory address` (lines 52-76): fetch all normal transactions
(default range 0..99999999, offset 10000), then all internal transactions,
and print the last five of each.  An error in either fetch propagates
(there is no retry and no catch inside this function). -/
def printHistory (api : TxQuery → EtherscanResponse) (address : String) :
    Except String (List Event) := do
  let normal ← fetchNormalTxs api address 0 99999999 10000
  let internal ← fetchInternalTxs api address 0 99999999 10000
  pure (printHistoryEvents normal internal)

/-- `printHistory` with the HTTP transport indexed by call order: call 0 is
the normal-transaction request, call 1 the internal-transaction request
(the only two requests the function makes, in program order).  This lets a
mocked client answer differently per call, as the spec's retry scenario
requires. -/
def printHistoryIndexed (oracle : Nat → EtherscanResponse) :
    Except String (List Event) := do
  let normal ← fetchNormalTxsResp (oracle 0)
  let internal ← fetchInternalTxsResp (oracle 1)
  pure (printHistoryEvents normal internal)

/-- Outcome of the top-level IIFE (lines 133-141): either backfill
succeeded and live monitoring started (`live`, carrying the printed
history), or an error escaped, was logged as `Fatal:` and the process
exited with code 1 (`fatalExit`) — `liveMonitor` is never reached in that
case. -/
inductive MainOutcome
  | live (history : List Event)
  | fatalExit (code : Nat) (message : String)

deriving instance DecidableEq for MainOutcome

/-- The top-level IIFE (lines 133-141): `await printHistory(WATCH)` then
`await liveMonitor(WATCH)`, with a catch that logs `Fatal:` and calls
`process.exit(1)`. -/
def mainRun (api : TxQuery → EtherscanResponse) (address : String) : MainOutcome :=
  match printHistory api address with
  | Except.ok evs => MainOutcome.live evs
  | Except.error e => MainOutcome.fatalExit 1 ("Fatal: " ++ e)

/-- Whether the process reached live monitoring. -/
def MainOutcome.isLive : MainOutcome → Bool
  | MainOutcome.live _ => true
  | MainOutcome.fatalExit _ _ => false

/-- A transaction object inside an ethers block body (`block.transactions`
entries).  `from` and `to` may be null (contract creation has no `to`). -/
structure RpcTx where
  hash : String
  «from» : Option String
  «to» : Option String
  value : Nat

deriving instance DecidableEq for RpcTx

/-- An ethers block body as returned by `getBlock(n, true)`; the
`transactions` field may be absent. -/
structure Block where
  transactions : Option (List RpcTx)

deriving instance DecidableEq for Block

/-- The match test of `handleBlock` lines 85-87: lower-case the possibly
null `from` and `to` fields and compare each with `WATCH` (which line 7
stores already lower-cased). -/
def matchesWatch (watch : String) (tx : RpcTx) : Bool :=
  (lowerStr (tx.«from».getD "") == watch) || (lowerStr (tx.«to».getD "") == watch)

/-- The transactions of one block body that `handleBlock` reports as normal
transactions: the entries of `block.transactions` whose `from` or `to`
matches the watched address (lines 83-96); none when the field is absent. -/
def blockNormalMatches (watch : String) (b : Block) : List RpcTx :=
  match b.transactions with
  | some txs => txs.filter (matchesWatch watch)
  | none => []

/-- One observable step of the monitor: a console emission or an outbound
indexing-API query, in program order. -/
inductive Act
  | emitNormal (blockNumber : Nat) (tx : RpcTx)
  | queryInternal (startBlock endBlock offset : Nat)
  | emitInternal (t : EtherscanTx)
  | logError (msg : String)

deriving instance DecidableEq for Act

/-- The normal-transaction emissions of `handleBlock` for block `bn`
(lines 80-96): fetch the block from the node (`chain`), and if it exists
and has a transaction list, emit one `emitNormal` per matching entry. -/
def normalTxActions (chain : Nat → Option Block) (watch : String) (bn : Nat) :
    List Act :=
  match chain bn with
  | some b => (blockNormalMatches watch b).map (Act.emitNormal bn)
  | none => []

/-- `handleBlock blockNumber` (lines 79-115): emit the matching normal
transactions of the block body, then query the indexing API for internal
transactions of the single-block range with offset 1000; on success emit
each result, on failure log `Internal fetch error:` and continue — the
try/catch at lines 99-114 confines the failure, so the function is total
(it never throws past this point). -/
def handleBlock (chain : Nat → Option Block) (api : TxQuery → EtherscanResponse)
    (watch : String) (bn : Nat) : List Act :=
  normalTxActions chain watch bn ++
    Act.queryInternal bn bn 1000 ::
      (match fetchInternalTxs api watch bn bn 1000 with
       | Except.ok ints => ints.map Act.emitInternal
       | Except.error msg => [Act.logError ("Internal fetch error: " ++ msg)])

/-- State of the live tailer.  The script itself keeps no cursor variable;
`lastProcessedBlock` records the observable analogue — the number of the
last block whose handler ran to completion — so that the specification's
cursor claims can be stated against the code's behaviour.  `actions` is the
accumulated emission trace. -/
structure TailerState where
  lastProcessedBlock : Option Nat
  actions : List Act

deriving instance DecidableEq for TailerState

/-- One delivery of the `ws.on('block', ...)` callback (lines 120-126):
`handleBlock` runs unconditionally — there is no comparison of `bn` with
any cursor — and its trace is appended; since `handleBlock` is total the
surrounding try/catch has nothing to catch, and the handler completes, so
the last processed block becomes `bn`. -/
def tailStep (chain : Nat → Option Block) (api : TxQuery → EtherscanResponse)
    (watch : String) (st : TailerState) (bn : Nat) : TailerState :=
  { lastProcessedBlock := some bn
    actions := st.actions ++ handleBlock chain api watch bn }

/-- The live tailer consuming a sequence of delivered block numbers in
delivery order. -/
def tailRun (chain : Nat → Option Block) (api : TxQuery → EtherscanResponse)
    (watch : String) : TailerState → List Nat → TailerState
  | st, [] => st
  | st, bn :: rest => tailRun chain api watch (tailStep chain api watch st bn) rest

/-- An event delivered to the live monitor by the websocket provider:
a new block number, or a close of the underlying socket. -/
inductive WsEvent
  | newBlock (n : Nat)
  | closed

deriving instance DecidableEq for WsEvent

/-- State of `liveMonitor`: whether the block subscription is up, the
tailer state, and the log lines of the close handler. -/
structure LiveState where
  subscribed : Bool
  tailer : TailerState
  closeLogs : List String

deriving instance DecidableEq for LiveState

/-- One event of the subscription registered by `liveMonitor`
(lines 117-131).  A block number is processed only while the socket is up
(a closed socket delivers no callbacks).  On `close` the handler at lines
128-130 runs: it logs `WebSocket closed. Restart the script to reconnect.`
and nothing else — no re-subscription, no state that would lead back to
`subscribed = true`. -/
def liveStep (chain : Nat → Option Block) (api : TxQuery → EtherscanResponse)
    (watch : String) (st : LiveState) : WsEvent → LiveState
  | WsEvent.newBlock n =>
      if st.subscribed then
        { st with tailer := tailStep chain api watch st.tailer n }
      else st
  | WsEvent.closed =>
      { st with subscribed := false,
                closeLogs := st.closeLogs ++
                  ["WebSocket closed. Restart the script to reconnect."] }

/-- The live monitor consuming a sequence of websocket events in order. -/
def liveRun (chain : Nat → Option Block) (api : TxQuery → EtherscanResponse)
    (watch : String) : LiveState → List WsEvent → LiveState
  | st, [] => st
  | st, e :: rest => liveRun chain api watch (liveStep chain api watch st e) rest

/-- Case-insensitive equality of two identifier strings, the matching
notion the specification prescribes for address comparison. -/
def eqNoCase (a b : String) : Prop :=
  lowerStr a = lowerStr b

/-- Modelled from the spec (§4.3): the cursor value backfill is required to
establish — the maximum block number seen across the merged normal and
internal batches, or 0 if none.  The code computes no such value; this
definition exists to state the hand-off claims. -/
def specCursorAfterBackfill (normal internal : List EtherscanTx) : Nat :=
  ((normal ++ internal).map (fun t => t.blockNumber)).foldr Nat.max 0

/-- Block number of a backfill event, for stating chronological order. -/
def eventBlock : Event → Nat
  | Event.normal t => t.blockNumber
  | Event.internal t => t.blockNumber

/-- Whether a batch is chronologically ordered by block number — the order
the specification requires of the merged backfill batch. -/
def sortedByBlock : List Event → Bool
  | [] => true
  | [_] => true
  | a :: b :: rest => Nat.ble (eventBlock a) (eventBlock b) && sortedByBlock (b :: rest)

/-- Example Etherscan record builder: a transaction of block `b` involving
the watched address `0xabcd`. -/
def mkTx (h : String) (b : Nat) : EtherscanTx :=
  { hash := h, blockNumber := b, timeStamp := b, «from» := "0xabcd",
    «to» := "0xdddd", value := 0, input := "0x", type := none, traceId := none }

/-- Example Etherscan record at block 5 with hash `0xh1`. -/
def exTxE : EtherscanTx := mkTx "0xh1" 5

/-- The same on-chain transaction as `exTxE`, as it appears inside the
block body delivered over RPC. -/
def exRpc : RpcTx :=
  { hash := "0xh1", «from» := some "0xabcd", «to» := some "0xdddd", value := 0 }

/-- An RPC transaction between two unrelated addresses. -/
def exRpcOther : RpcTx :=
  { hash := "0xh2", «from» := some "0xeeee", «to» := some "0xffff", value := 0 }

/-- Example block body number 5, holding the watched transaction and an
unrelated one. -/
def exBlock5 : Block := { transactions := some [exRpc, exRpcOther] }

/-- Example node: block 5 exists, every other number does not. -/
def exChain : Nat → Option Block :=
  fun n => if n = 5 then some exBlock5 else none

/-- A node on which every block lookup returns null. -/
def emptyChain : Nat → Option Block := fun _ => none

/-- An indexing API that always answers success with an empty result. -/
def exOkApi : TxQuery → EtherscanResponse :=
  fun _ => { status := "1", message := "OK", result := some [] }

/-- A rate-limit failure response. -/
def exRateLimited : EtherscanResponse :=
  { status := "0", message := "Max rate limit reached", result := none }

/-- An indexing API that always answers with the rate-limit failure. -/
def exFailApi : TxQuery → EtherscanResponse := fun _ => exRateLimited

/-- A mocked response claiming no transactions found while still carrying
a result entry. -/
def exNoTxButResult : EtherscanResponse :=
  { status := "0", message := "No transactions found", result := some [exTxE] }

/-- A genuine no-transactions-found response with a null result field. -/
def exNoTxResp : EtherscanResponse :=
  { status := "0", message := "No transactions found", result := none }

/-- A mocked indexing client for the retry scenario: the first two calls
are rate-limited, every later call succeeds. -/
def exOracle7 : Nat → EtherscanResponse :=
  fun k => if k < 2 then exRateLimited else { status := "1", message := "OK", result := some [] }

/-- Three example records forming a result set that spans two pages of
size 2. -/
def exT1 : EtherscanTx := mkTx "0xt1" 1

/-- Second record of the paged example set. -/
def exT2 : EtherscanTx := mkTx "0xt2" 2

/-- Third record of the paged example set, living on page 2. -/
def exT3 : EtherscanTx := mkTx "0xt3" 3

/-- A paginated indexing API: page 1 holds `[exT1, exT2]` (a full page of
size 2), page 2 holds `[exT3]`, later pages are empty. -/
def exPagingApi : TxQuery → EtherscanResponse :=
  fun q =>
    if q.page = 1 then { status := "1", message := "OK", result := some [exT1, exT2] }
    else if q.page = 2 then { status := "1", message := "OK", result := some [exT3] }
    else { status := "0", message := "No transactions found", result := none }

/-- Six normal-transaction records at blocks 1..6. -/
def exNormals : List EtherscanTx :=
  [mkTx "0xn1" 1, mkTx "0xn2" 2, mkTx "0xn3" 3, mkTx "0xn4" 4, mkTx "0xn5" 5, mkTx "0xn6" 6]

/-- One internal-transaction record at block 3. -/
def exInternals : List EtherscanTx := [mkTx "0xi3" 3]

/-- The empty tailer start state. -/
def tailerStart : TailerState := { lastProcessedBlock := none, actions := [] }

/-- The live-monitor start state: subscribed, empty tailer, no logs. -/
def liveStart : LiveState :=
  { subscribed := true, tailer := tailerStart, closeLogs := [] }

/-- The trace of a tailer run is the start trace followed by each
delivered block's handler trace, in delivery order. -/
theorem tailRun_actions (chain : Nat → Option Block) (api : TxQuery → EtherscanResponse)
    (watch : String) (st : TailerState) (l : List Nat) :
    (tailRun chain api watch st l).actions =
      st.actions ++ (l.map (handleBlock chain api watch)).flatten := by
  induction l generalizing st with
  | nil => simp [tailRun]
  | cons bn rest ih => simp [tailRun, tailStep, ih, List.append_assoc]

/-- After a nonempty run the last processed block is the last delivered
number. -/
theorem tailRun_lastProcessed (chain : Nat → Option Block)
    (api : TxQuery → EtherscanResponse) (watch : String) (st : TailerState)
    (l : List Nat) (b : Nat) (h : l.getLast? = some b) :
    (tailRun chain api watch st l).lastProcessedBlock = some b := by
  induction l generalizing st with
  | nil => simp at h
  | cons x xs ih =>
    cases xs with
    | nil =>
      simp [List.getLast?] at h
      simp [tailRun, tailStep, h]
    | cons y ys =>
      rw [List.getLast?_cons_cons] at h
      exact ih (tailStep chain api watch st x) h

/-- C4 (counterexample): the claim says a non-success response with message
`No transactions found` yields an empty batch; the code returns
`data.result || []`, so a response carrying that message together with a
non-empty `result` field yields that non-empty list, not the empty batch,
in both fetchers. -/
theorem noTxFound_nonempty_result_counterexample :
    fetchNormalTxsResp exNoTxButResult = Except.ok [exTxE] ∧
    fetchInternalTxsResp exNoTxButResult = Except.ok [exTxE] ∧
    ([exTxE] : List EtherscanTx) ≠ ([] : List EtherscanTx) := by
  refine ⟨rfl, rfl, by decide⟩

/-- C4 (amended): for every response with non-success status, if the
message is exactly `No transactions found` both fetchers return the
response's `result` list without raising — the empty batch whenever the
`result` field is absent, as it is in real such responses — and any other
non-success response raises the corresponding labelled error. -/
theorem noTxFound_returns_result_list (data : EtherscanResponse)
    (h : data.status ≠ "1") :
    (data.message = "No transactions found" →
      fetchNormalTxsResp data = Except.ok (data.result.getD []) ∧
      fetchInternalTxsResp data = Except.ok (data.result.getD []) ∧
      (data.result = none →
        fetchNormalTxsResp data = Except.ok [] ∧
        fetchInternalTxsResp data = Except.ok [])) ∧
    (data.message ≠ "No transactions found" →
      fetchNormalTxsResp data = Except.error ("Etherscan normal error: " ++ data.message) ∧
      fetchInternalTxsResp data = Except.error ("Etherscan internal error: " ++ data.message)) := by
  constructor
  · intro hm
    have hc : ¬(data.status ≠ "1" ∧ data.message ≠ "No transactions found") :=
      fun hcontra => hcontra.2 hm
    refine ⟨?_, ?_, fun hr => ⟨?_, ?_⟩⟩
    · simp [fetchNormalTxsResp, if_neg hc]
    · simp [fetchInternalTxsResp, if_neg hc]
    · simp [fetchNormalTxsResp, if_neg hc, hr]
    · simp [fetchInternalTxsResp, if_neg hc, hr]
  · intro hm
    have hc : data.status ≠ "1" ∧ data.message ≠ "No transactions found" := ⟨h, hm⟩
    exact ⟨by simp [fetchNormalTxsResp, if_pos hc],
           by simp [fetchInternalTxsResp, if_pos hc]⟩

/-- C4 witness: a genuine `No transactions found` response with a null
result field yields the empty batch from both fetchers. -/
theorem noTxFound_returns_result_list_witness :
    fetchNormalTxsResp exNoTxResp = Except.ok [] ∧
    fetchInternalTxsResp exNoTxResp = Except.ok [] :=
  ((noTxFound_returns_result_list exNoTxResp (by decide)).1 rfl).2.2 rfl

/-- C6 (counterexample): against an API whose result set spans two pages
of size 2, both fetchers return only the page-1 list; the page-2 record
`exT3` belongs to the result set of the requested range but is absent from
the returned batch — the fetchers do not paginate. -/
theorem single_page_counterexample :
    fetchNormalTxs exPagingApi "0xabcd" 0 99999999 2 = Except.ok [exT1, exT2] ∧
    fetchInternalTxs exPagingApi "0xabcd" 0 99999999 2 = Except.ok [exT1, exT2] ∧
    exT3 ∈ (exPagingApi { normalQuery "0xabcd" 0 99999999 2 with page := 2 }).result.getD [] ∧
    exT3 ∉ [exT1, exT2] := by
  refine ⟨rfl, rfl, by decide, by decide⟩

/-- C6 (amended): each fetcher issues exactly one request, with the page
number fixed to 1, and its returned batch is drawn solely from that
page-1 response: a record absent from the page-1 result list is absent
from any successfully returned batch. -/
theorem fetch_single_page_only (api : TxQuery → EtherscanResponse) (address : String)
    (startBlock endBlock offset : Nat) :
    fetchNormalTxsQueries address startBlock endBlock offset =
      [normalQuery address startBlock endBlock offset] ∧
    fetchInternalTxsQueries address startBlock endBlock offset =
      [internalQuery address startBlock endBlock offset] ∧
    (normalQuery address startBlock endBlock offset).page = 1 ∧
    (internalQuery address startBlock endBlock offset).page = 1 ∧
    (∀ txs t, fetchNormalTxs api address startBlock endBlock offset = Except.ok txs →
      t ∉ (api (normalQuery address startBlock endBlock offset)).result.getD [] →
      t ∉ txs) ∧
    (∀ txs t, fetchInternalTxs api address startBlock endBlock offset = Except.ok txs →
      t ∉ (api (internalQuery address startBlock endBlock offset)).result.getD [] →
      t ∉ txs) := by
  refine ⟨rfl, rfl, rfl, rfl, ?_, ?_⟩
  · intro txs t hfetch ht
    unfold fetchNormalTxs fetchNormalTxsResp at hfetch
    split at hfetch
    · exact absurd hfetch (by simp)
    · injection hfetch with hres
      rw [← hres]
      exact ht
  · intro txs t hfetch ht
    unfold fetchInternalTxs fetchInternalTxsResp at hfetch
    split at hfetch
    · exact absurd hfetch (by simp)
    · injection hfetch with hres
      rw [← hres]
      exact ht

/-- C6 witness: on the two-page example API, the record of page 2 is
indeed missing from the batch the normal fetcher returns. -/
theorem fetch_single_page_only_witness : exT3 ∉ [exT1, exT2] :=
  (fetch_single_page_only exPagingApi "0xabcd" 0 99999999 2).2.2.2.2.1
    [exT1, exT2] exT3 rfl (by decide)

/-- C7 (counterexample): with a mocked client that is rate-limited on its
first two calls and succeeds afterwards, backfill does not succeed: the
first failure propagates immediately as an error — there is no retry. -/
theorem rate_limit_retry_counterexample :
    printHistoryIndexed exOracle7 =
      Except.error "Etherscan normal error: Max rate limit reached" ∧
    (exOracle7 2).status = "1" := by
  refine ⟨rfl, rfl⟩

/-- C7 (amended): backfill performs no retry: whenever the response to its
first call has non-success status and a message other than
`No transactions found` (for example a rate limit), backfill surfaces that
error at once, regardless of what later calls would return. -/
theorem backfill_no_retry (oracle : Nat → EtherscanResponse)
    (h1 : (oracle 0).status ≠ "1")
    (h2 : (oracle 0).message ≠ "No transactions found") :
    printHistoryIndexed oracle =
      Except.error ("Etherscan normal error: " ++ (oracle 0).message) := by
  have hc : (oracle 0).status ≠ "1" ∧ (oracle 0).message ≠ "No transactions found" :=
    ⟨h1, h2⟩
  unfold printHistoryIndexed fetchNormalTxsResp
  rw [if_pos hc]
  rfl

/-- C7 witness: the amended statement evaluated on the mocked
first-two-calls-rate-limited client. -/
theorem backfill_no_retry_witness :
    printHistoryIndexed exOracle7 =
      Except.error ("Etherscan normal error: " ++ (exOracle7 0).message) :=
  backfill_no_retry exOracle7 (by decide) (by decide)

instance (a b : String) : Decidable (eqNoCase a b) :=
  inferInstanceAs (Decidable (lowerStr a = lowerStr b))

/-- C2 (counterexample): with an indexing client whose first response is a
rate-limit failure, backfill throws, the IIFE catch logs `Fatal:` and the
process exits with code 1 — live monitoring never starts, contradicting
the claimed degraded-but-running state. -/
theorem backfill_failure_exits_counterexample :
    mainRun exFailApi "0xabcd" =
      MainOutcome.fatalExit 1 "Fatal: Etherscan normal error: Max rate limit reached" ∧
    (mainRun exFailApi "0xabcd").isLive = false :=
  ⟨rfl, rfl⟩

/-- C2 (amended): whenever backfill fails, the process logs the error
prefixed `Fatal:` and exits with code 1; live tailing does not start. -/
theorem backfill_failure_fatal_exit (api : TxQuery → EtherscanResponse)
    (address : String) (e : String)
    (h : printHistory api address = Except.error e) :
    mainRun api address = MainOutcome.fatalExit 1 ("Fatal: " ++ e) ∧
    (mainRun api address).isLive = false := by
  simp [mainRun, h, MainOutcome.isLive]

/-- C2 witness: the amended statement evaluated on the always-rate-limited
client. -/
theorem backfill_failure_fatal_exit_witness :
    mainRun exFailApi "0xfeed" =
      MainOutcome.fatalExit 1 ("Fatal: " ++ "Etherscan normal error: Max rate limit reached") ∧
    (mainRun exFailApi "0xfeed").isLive = false :=
  backfill_failure_fatal_exit exFailApi "0xfeed"
    "Etherscan normal error: Max rate limit reached" rfl

/-- C5 (confirmed): with the watched address stored lower-cased (line 7),
a transaction of a delivered block body is reported as a normal
transaction exactly when its `from` or its `to` field equals the watched
address case-insensitively; transactions touching only other addresses
are never reported. -/
theorem normal_match_filter (addr : String) (b : Block) (txs : List RpcTx)
    (tx : RpcTx) (h : b.transactions = some txs) :
    tx ∈ blockNormalMatches (lowerStr addr) b ↔
      tx ∈ txs ∧
        (eqNoCase (tx.«from».getD "") addr ∨ eqNoCase (tx.«to».getD "") addr) := by
  simp [blockNormalMatches, h, List.mem_filter, matchesWatch, eqNoCase,
    Bool.or_eq_true, beq_iff_eq]

/-- C5 witness: in the example block, the transaction involving the
watched address (written here in mixed case) is reported and the
unrelated one is not. -/
theorem normal_match_filter_witness :
    exRpc ∈ blockNormalMatches (lowerStr "0xAbCd") exBlock5 ∧
    exRpcOther ∉ blockNormalMatches (lowerStr "0xAbCd") exBlock5 :=
  ⟨(normal_match_filter "0xAbCd" exBlock5 [exRpc, exRpcOther] exRpc rfl).mpr
      (by decide),
   fun hmem =>
    absurd
      ((normal_match_filter "0xAbCd" exBlock5 [exRpc, exRpcOther] exRpcOther rfl).mp hmem)
      (by decide)⟩

/-- C9 (counterexample): with six normal records at blocks 1..6 and one
internal record at block 3, backfill prints only the last five normal
records followed by the internal one: the block-1 event is missing (the
batch is not the full history) and the output is not chronologically
ordered (block 3 comes after block 6) — the two lists are never merged. -/
theorem backfill_merge_order_counterexample :
    printHistoryEvents exNormals exInternals =
      [Event.normal (mkTx "0xn2" 2), Event.normal (mkTx "0xn3" 3),
       Event.normal (mkTx "0xn4" 4), Event.normal (mkTx "0xn5" 5),
       Event.normal (mkTx "0xn6" 6), Event.internal (mkTx "0xi3" 3)] ∧
    Event.normal (mkTx "0xn1" 1) ∉ printHistoryEvents exNormals exInternals ∧
    sortedByBlock (printHistoryEvents exNormals exInternals) = false := by
  refine ⟨rfl, by decide, by decide⟩

/-- C9 (amended): backfill emits the last five normal-transaction events
in their original order, followed by the last five internal-transaction
events in their original order — a concatenation, not a chronological
merge, and with anything before the last five of each list omitted.  When
each list has at most five entries this is exactly all normal events
followed by all internal events. -/
theorem backfill_concat_last_five (normal internal : List EtherscanTx)
    (hn : normal.length ≤ 5) (hi : internal.length ≤ 5) :
    printHistoryEvents normal internal =
      normal.map Event.normal ++ internal.map Event.internal := by
  simp [printHistoryEvents, lastFive, Nat.sub_eq_zero_of_le hn,
    Nat.sub_eq_zero_of_le hi]

/-- C9 witness: the amended statement evaluated on a one-element normal
list and a one-element internal list. -/
theorem backfill_concat_last_five_witness :
    printHistoryEvents [exTxE] exInternals =
      [exTxE].map Event.normal ++ exInternals.map Event.internal :=
  backfill_concat_last_five [exTxE] exInternals (by decide) (by decide)

/-- C10 (confirmed): when the node returns a null block, or a block with
no transaction list, `handleBlock` emits no normal-transaction event and
raises nothing (the function is total), and it still issues the
internal-transaction query for that block number. -/
theorem handleBlock_null_block_safe (chain : Nat → Option Block)
    (api : TxQuery → EtherscanResponse) (watch : String) (bn : Nat)
    (h : chain bn = none ∨ ∃ b, chain bn = some b ∧ b.transactions = none) :
    (∀ n tx, Act.emitNormal n tx ∉ handleBlock chain api watch bn) ∧
    Act.queryInternal bn bn 1000 ∈ handleBlock chain api watch bn := by
  have hnorm : normalTxActions chain watch bn = [] := by
    rcases h with h | ⟨b, hb, ht⟩
    · simp [normalTxActions, h]
    · simp [normalTxActions, hb, blockNormalMatches, ht]
  constructor
  · intro n tx hmem
    cases hfetch : fetchInternalTxs api watch bn bn 1000 with
    | error msg => simp [handleBlock, hnorm, hfetch] at hmem
    | ok ints => simp [handleBlock, hnorm, hfetch, List.mem_map] at hmem
  · simp [handleBlock, hnorm]

/-- C10 witness: on a node that knows no blocks, block 9 yields no normal
emission and the single-block internal query is still made. -/
theorem handleBlock_null_block_safe_witness :
    Act.emitNormal 3 exRpc ∉ handleBlock emptyChain exOkApi "0xabcd" 9 ∧
    Act.queryInternal 9 9 1000 ∈ handleBlock emptyChain exOkApi "0xabcd" 9 :=
  ⟨(handleBlock_null_block_safe emptyChain exOkApi "0xabcd" 9 (Or.inl rfl)).1 3 exRpc,
   (handleBlock_null_block_safe emptyChain exOkApi "0xabcd" 9 (Or.inl rfl)).2⟩

/-- C3 (confirmed): when the internal-transaction fetch for block `bn`
fails, the failure stays confined to that sub-step: the handler still
emits exactly the block's matching normal transactions (which do not
depend on the indexing API), then records the query and the error log;
the handler completes, so the last processed block still becomes `bn`;
and the subscription keeps processing every later delivered block. -/
theorem internal_failure_isolated (chain : Nat → Option Block)
    (api : TxQuery → EtherscanResponse) (watch : String) (st : TailerState)
    (bn : Nat) (e : String) (rest : List Nat)
    (h : fetchInternalTxs api watch bn bn 1000 = Except.error e) :
    (tailStep chain api watch st bn).actions =
      st.actions ++ normalTxActions chain watch bn ++
        [Act.queryInternal bn bn 1000,
         Act.logError ("Internal fetch error: " ++ e)] ∧
    (tailStep chain api watch st bn).lastProcessedBlock = some bn ∧
    (tailRun chain api watch (tailStep chain api watch st bn) rest).actions =
      (tailStep chain api watch st bn).actions ++
        (rest.map (handleBlock chain api watch)).flatten := by
  refine ⟨?_, rfl, tailRun_actions chain api watch _ rest⟩
  simp [tailStep, handleBlock, h, List.append_assoc]

/-- C3 witness: block 5 of the example chain with an always-rate-limited
indexing client — the matching normal transaction is still emitted, the
cursor reaches 5, and block 6 is still handled afterwards. -/
theorem internal_failure_isolated_witness :
    (tailStep exChain exFailApi "0xabcd" tailerStart 5).actions =
      tailerStart.actions ++ normalTxActions exChain "0xabcd" 5 ++
        [Act.queryInternal 5 5 1000,
         Act.logError
          ("Internal fetch error: " ++ "Etherscan internal error: Max rate limit reached")] ∧
    (tailStep exChain exFailApi "0xabcd" tailerStart 5).lastProcessedBlock = some 5 ∧
    (tailRun exChain exFailApi "0xabcd"
        (tailStep exChain exFailApi "0xabcd" tailerStart 5) [6]).actions =
      (tailStep exChain exFailApi "0xabcd" tailerStart 5).actions ++
        ([6].map (handleBlock exChain exFailApi "0xabcd")).flatten :=
  internal_failure_isolated exChain exFailApi "0xabcd" tailerStart 5
    "Etherscan internal error: Max rate limit reached" [6] rfl

/-- C1 (counterexample): the script keeps no cursor and gates no block.
In this run, backfill already emitted the normal event of block 5 (the
spec cursor after backfill is therefore 5), yet when the subscription
delivers block 5 the tailer processes it and emits the same on-chain
transaction again — a block ≤ the hand-off cursor is processed and the
event is produced twice across the boundary. -/
theorem handoff_cursor_counterexample :
    Event.normal exTxE ∈ printHistoryEvents [exTxE] [] ∧
    specCursorAfterBackfill [exTxE] [] = 5 ∧
    Act.emitNormal 5 exRpc ∈ (tailRun exChain exOkApi "0xabcd" tailerStart [5]).actions ∧
    exRpc.hash = exTxE.hash ∧ exTxE.blockNumber = 5 := by
  refine ⟨by decide, rfl, by decide, rfl, rfl⟩

/-- C1 (amended): the live tailer applies no cursor filtering at the
hand-off: it processes every delivered block number, in delivery order,
appending each block's handler trace, and its last processed block is
simply the last delivered number — so exactly-once coverage of the
boundary holds only if the subscription never (re)delivers a block at or
below the backfill maximum. -/
theorem tailer_processes_all_delivered (chain : Nat → Option Block)
    (api : TxQuery → EtherscanResponse) (watch : String) (st : TailerState)
    (l : List Nat) :
    (tailRun chain api watch st l).actions =
      st.actions ++ (l.map (handleBlock chain api watch)).flatten ∧
    (∀ b, l.getLast? = some b →
      (tailRun chain api watch st l).lastProcessedBlock = some b) :=
  ⟨tailRun_actions chain api watch st l,
   fun b hb => tailRun_lastProcessed chain api watch st l b hb⟩

/-- C1 witness: delivering blocks 5 then 6 to the example tailer
processes both in order and leaves the last processed block at 6. -/
theorem tailer_processes_all_delivered_witness :
    (tailRun exChain exOkApi "0xabcd" tailerStart [5, 6]).actions =
      tailerStart.actions ++ ([5, 6].map (handleBlock exChain exOkApi "0xabcd")).flatten ∧
    (tailRun exChain exOkApi "0xabcd" tailerStart [5, 6]).lastProcessedBlock = some 6 :=
  ⟨(tailer_processes_all_delivered exChain exOkApi "0xabcd" tailerStart [5, 6]).1,
   (tailer_processes_all_delivered exChain exOkApi "0xabcd" tailerStart [5, 6]).2 6 rfl⟩

/-- Once the live monitor is unsubscribed it stays unsubscribed and its
tailer never changes again, whatever events follow: the code contains no
reconnect path. -/
theorem liveRun_stays_closed (chain : Nat → Option Block)
    (api : TxQuery → EtherscanResponse) (watch : String) (evs : List WsEvent) :
    ∀ st : LiveState, st.subscribed = false →
      (liveRun chain api watch st evs).subscribed = false ∧
      (liveRun chain api watch st evs).tailer = st.tailer := by
  induction evs with
  | nil => exact fun st h => ⟨h, rfl⟩
  | cons e rest ih =>
    intro st h
    cases e with
    | newBlock n =>
      have hstep : liveStep chain api watch st (WsEvent.newBlock n) = st := by
        simp [liveStep, h]
      simp only [liveRun, hstep]
      exact ih st h
    | closed =>
      simp only [liveRun]
      obtain ⟨h1, h2⟩ := ih (liveStep chain api watch st WsEvent.closed) rfl
      exact ⟨h1, h2⟩

/-- C8 (counterexample): after the websocket reports a close, the monitor
state is merely unsubscribed with the manual-restart message logged; no
reconnection happens, and a block delivered afterwards is not processed —
the process idles until restarted by hand. -/
theorem ws_close_no_reconnect_counterexample :
    liveRun exChain exOkApi "0xabcd" liveStart [WsEvent.closed, WsEvent.newBlock 5] =
      { subscribed := false, tailer := tailerStart,
        closeLogs := ["WebSocket closed. Restart the script to reconnect."] } ∧
    (liveRun exChain exOkApi "0xabcd" liveStart
        [WsEvent.closed, WsEvent.newBlock 5]).tailer.actions = [] :=
  ⟨rfl, rfl⟩

/-- C8 (amended): on a disconnect the close handler only appends the log
line `WebSocket closed. Restart the script to reconnect.` and marks the
subscription down; it never re-establishes it — from then on every
delivered event leaves the subscription down and the tailer untouched. -/
theorem ws_close_logs_only (chain : Nat → Option Block)
    (api : TxQuery → EtherscanResponse) (watch : String) (st : LiveState)
    (evs : List WsEvent) :
    ((liveStep chain api watch st WsEvent.closed).subscribed = false ∧
     (liveStep chain api watch st WsEvent.closed).closeLogs =
       st.closeLogs ++ ["WebSocket closed. Restart the script to reconnect."] ∧
     (liveStep chain api watch st WsEvent.closed).tailer = st.tailer) ∧
    (st.subscribed = false →
      (liveRun chain api watch st evs).subscribed = false ∧
      (liveRun chain api watch st evs).tailer = st.tailer) :=
  ⟨⟨rfl, rfl, rfl⟩, fun h => liveRun_stays_closed chain api watch evs st h⟩

/-- C8 witness: closing the example monitor leaves it unsubscribed, and an
already-closed monitor ignores a later block delivery. -/
theorem ws_close_logs_only_witness :
    (liveStep exChain exOkApi "0xabcd" liveStart WsEvent.closed).subscribed = false ∧
    (liveRun exChain exOkApi "0xabcd"
        { subscribed := false, tailer := tailerStart, closeLogs := [] }
        [WsEvent.newBlock 7]).subscribed = false :=
  ⟨(ws_close_logs_only exChain exOkApi "0xabcd" liveStart []).1.1,
   ((ws_close_logs_only exChain exOkApi "0xabcd"
      { subscribed := false, tailer := tailerStart, closeLogs := [] }
      [WsEvent.newBlock 7]).2 rfl).1⟩
